import Mathlib

set_option maxRecDepth 8000

/-!
Verification of the conversational-agent core of this repository: a shallow
embedding, in Lean, of the agent's message pipeline
(`src/ai-agent-app/src/services/ai.service.ts`, class `AIAgent`), the helper
functions (`src/ai-agent-app/src/utils/helpers.ts`) and the tool registry
(`src/ai-agent-app/src/tools/imageTools.ts`, class `ToolRegistry`), together
with theorems settling the behavioural properties stated in the spec.

Conventions of the embedding:
* JavaScript strings become `String`, arrays become `List`, objects with a
  fixed shape become structures, and `Map`/object-as-dictionary becomes an
  association list `List (String × _)`.
* `Date.now()` is modelled by a clock `Nat → Nat` sampled at successive tick
  indices, one tick per `Date.now()` call of the modelled code (calls made
  inside the logger are not modelled; they only shift tick indices upward and
  never reorder the samples the modelled code observes).
* External collaborators (Workers AI inference, embedding, Vectorize) are
  modelled by an environment record describing the outcome of each call;
  a rejected promise is an explicit `throws` outcome.
* Fallible JavaScript (try/catch) becomes a total function on these explicit
  outcome types, mirroring each catch branch of the source.
-/

/-! ## helpers.ts -/

/-- JavaScript `String.prototype.trim`: drop whitespace from both ends. -/
def trimChars (l : List Char) : List Char :=
  ((l.dropWhile Char.isWhitespace).reverse.dropWhile Char.isWhitespace).reverse

/-- `sanitizeInput` (helpers.ts lines 56-58): trim, then strip every angle
bracket (`input.trim().replace(/[<>]/g, '')`). -/
def sanitizeInput (input : String) : String :=
  String.mk ((trimChars input.toList).filter (fun c => c ≠ '<' ∧ c ≠ '>'))

/-- `estimateTokenCount` (helpers.ts lines 63-66): `Math.ceil(text.length / 4)`. -/
def estimateTokenCount (text : String) : Nat :=
  (text.length + 3) / 4

/-- Outcome of one `env.AI.run` call as `AIAgent.generateAIResponse` observes
it: the promise rejects (`throws`), or it resolves to a value without a
`.response` field (`invalid`), or it resolves to `{response: s}`. -/
inductive RunOutcome where
  | throws
  | invalid
  | ok (s : String)
deriving DecidableEq, Repr

/-- `retry` (helpers.ts lines 71-86) as observed through the attempts it
makes: attempts `i, i+1, …` are issued until one does not throw, at most
`maxRetries` of them; `none` means every attempt threw (the last error is
rethrown).  The exponential backoff sleeps between attempts do not change
which attempt outcomes are observed and are not modelled. -/
def retryModel (f : Nat → RunOutcome) : Nat → Nat → Option RunOutcome
  | 0, _ => none
  | n + 1, i =>
    match f i with
    | .throws => retryModel f n (i + 1)
    | r => some r

/-! ## Data model (types/index.ts) -/

/-- `Message.role`: `'user' | 'assistant' | 'system'`. -/
inductive Role where
  | user
  | assistant
  | system
deriving DecidableEq, Repr

/-- Metadata the agent stamps on an assistant `Message`
(ai.service.ts lines 771-775). -/
structure MsgMeta where
  responseTime : Nat
  model : String
  tokensUsed : Nat
deriving DecidableEq, Repr

/-- `Message` (types/index.ts): `{id, role, content, timestamp, metadata?}`. -/
structure Msg where
  id : String
  role : Role
  content : String
  timestamp : Nat
  metadata : Option MsgMeta
deriving DecidableEq, Repr

/-- `Memory` (types/index.ts) restricted to the fields the agent core reads:
`buildContext` reads only `content`; `id` and `type` identify the entry.  The
`embedding` vector and retrieval metadata are produced and consumed only by
the external Vectorize collaborator and are not modelled. -/
structure Memory where
  id : String
  type : String
  content : String
deriving DecidableEq, Repr

/-- `WorkflowDefinition.status`. -/
inductive WStatus where
  | pending
  | running
  | completed
  | failed
deriving DecidableEq, Repr

/-- In-memory workflow record pushed by `triggerWorkflow`
(ai.service.ts line 1004): `{id, name, status}`. -/
structure WorkflowRecord where
  id : String
  name : String
  status : WStatus
deriving DecidableEq, Repr

/-- Row of the `workflows` SQL table (ai.service.ts lines 444-454). -/
structure WorkflowRow where
  id : String
  name : String
  status : WStatus
  params : String
  result : Option String
  createdAt : Nat
  completedAt : Option Nat
deriving DecidableEq, Repr

/-- `UserContext` restricted to the field the agent mutates (`userId`). -/
structure UserContext where
  userId : String
deriving DecidableEq, Repr

/-- `AgentState` (types/index.ts). -/
structure AgentState where
  conversationHistory : List Msg
  userContext : UserContext
  activeWorkflows : List WorkflowRecord
  lastActivity : Nat
deriving DecidableEq, Repr

/-! ## AIAgent constants (ai.service.ts lines 361-364, and the AIService
fallback model of line 18, which the `AIAgent` class never references) -/

def MAX_CONTEXT_TOKENS : Nat := 4096

def MAX_HISTORY_MESSAGES : Nat := 50

def LLM_MODEL : String := "@cf/meta/llama-3.3-70b-instruct-fp8-fast"

def FALLBACK_MODEL : String := "@cf/meta/llama-3.1-8b-instruct"

/-! ## AIAgent.buildContext (ai.service.ts lines 807-846) -/

/-- One prompt segment pushed by `buildContext`: `{role, content}`.  The
`role` is a raw string there (`'system'` or a history message's role). -/
structure Segment where
  role : String
  content : String
deriving DecidableEq, Repr

/-- String form of a `Role`, as serialized into a prompt segment. -/
def Role.str : Role → String
  | .user => "user"
  | .assistant => "assistant"
  | .system => "system"

/-- The system prompt literal of ai.service.ts line 813. -/
def systemPromptContent : String :=
  "You are a helpful AI assistant powered by Cloudflare Workers AI. You have access to conversation history and relevant memories. Be concise, helpful, and friendly."

/-- Content of the folded memory segment (ai.service.ts lines 818-822):
`"Relevant context from past conversations:\n"` followed by the memories,
each rendered `- content` and joined with newlines. -/
def memoryContext (memories : List Memory) : String :=
  "Relevant context from past conversations:\n" ++
    String.intercalate "\n" (memories.map (fun m => "- " ++ m.content))

/-- The initial `messages` array of `buildContext` (lines 811-824): the
system prompt, then the folded memory segment when `memories` is non-empty. -/
def baseSegments (memories : List Memory) : List Segment :=
  [⟨"system", systemPromptContent⟩] ++
    (if memories.isEmpty then [] else [⟨"system", memoryContext memories⟩])

/-- The initial running token count of `buildContext` (line 827): the
estimate of the base segments' contents joined with a single space. -/
def initialTokenCount (memories : List Memory) : Nat :=
  estimateTokenCount (String.intercalate " " ((baseSegments memories).map (·.content)))

/-- The history-selection loop of `buildContext` (lines 828-843) on the
reversed (newest-first) history: a message is taken when adding its estimate
keeps the running count at or below the budget; the loop stops at the first
message that would overflow.  Returns the taken messages in selection order
together with the final running count. -/
def selectHistory (budget : Nat) : Nat → List Msg → List Msg × Nat
  | tokenCount, [] => ([], tokenCount)
  | tokenCount, m :: rest =>
    let msgTokens := estimateTokenCount m.content
    if tokenCount + msgTokens > budget then ([], tokenCount)
    else
      let r := selectHistory budget (tokenCount + msgTokens) rest
      (m :: r.1, r.2)

/-- `AIAgent.buildContext` (lines 807-846).  Selected history messages are
`unshift`ed while iterating newest-first, so they end up in chronological
order at the front of the returned array, before the base segments. -/
def buildContext (history : List Msg) (memories : List Memory) : List Segment :=
  let base := baseSegments memories
  let sel := (selectHistory MAX_CONTEXT_TOKENS (initialTokenCount memories)
    history.reverse).1
  (sel.reverse.map (fun m => ⟨m.role.str, m.content⟩)) ++ base

/-- Sum of the per-segment token estimates of a prompt. -/
def segmentTokenSum (segs : List Segment) : Nat :=
  (segs.map (fun s => estimateTokenCount s.content)).sum

/-! ## C1 theorems -/

/-- The history-selection loop never pushes the running count past the
budget: whatever it still adds on top of a starting count already within the
budget keeps the total within the budget. -/
theorem selectHistory_sum_le (budget : Nat) :
    ∀ (l : List Msg) (tc : Nat), tc ≤ budget →
      tc + ((selectHistory budget tc l).1.map
        (fun m => estimateTokenCount m.content)).sum ≤ budget := by
  intro l
  induction l with
  | nil => intro tc h; simpa [selectHistory] using h
  | cons m rest ih =>
    intro tc h
    by_cases hov : tc + estimateTokenCount m.content > budget
    · simp [selectHistory, hov]
      exact h
    · have hle : tc + estimateTokenCount m.content ≤ budget := Nat.le_of_not_lt hov
      have := ih (tc + estimateTokenCount m.content) hle
      simp [selectHistory, hov]
      omega

/-- A retrieved memory whose content is 17000 characters long.  Nothing in
`searchMemory` or `buildContext` bounds the size of a retrieved memory's
content. -/
def bigMemoryContent : String := String.mk (List.replicate 17000 'a')

def bigMemory : Memory := ⟨"m1", "conversation", bigMemoryContent⟩

theorem bigMemoryContent_length : bigMemoryContent.length = 17000 := by
  show (List.replicate 17000 'a').length = 17000
  exact List.length_replicate 17000 'a'

theorem memoryContext_bigMemory_length :
    (memoryContext [bigMemory]).length = 17044 := by
  have h : memoryContext [bigMemory] =
      "Relevant context from past conversations:\n" ++ ("- " ++ bigMemoryContent) := rfl
  rw [h, String.length_append, String.length_append, bigMemoryContent_length]
  decide

/-- C1 fails as stated: with no history and a single large retrieved memory,
`buildContext` returns just the system prompt and the folded memory segment —
neither is ever dropped — and their estimated token counts sum to 4302,
above the budget of 4096. -/
theorem buildContext_can_exceed_budget :
    ¬ segmentTokenSum (buildContext [] [bigMemory]) ≤ MAX_CONTEXT_TOKENS := by
  have h1 : buildContext [] [bigMemory] = baseSegments [bigMemory] := by
    simp [buildContext, selectHistory]
  have h2 : segmentTokenSum (baseSegments [bigMemory]) =
      estimateTokenCount systemPromptContent +
        estimateTokenCount (memoryContext [bigMemory]) := by
    simp [segmentTokenSum, baseSegments]
  have h3 : estimateTokenCount (memoryContext [bigMemory]) = 4261 := by
    simp [estimateTokenCount, memoryContext_bigMemory_length]
  have h4 : estimateTokenCount systemPromptContent = 41 := by decide
  rw [h1, h2, h3, h4]
  simp [MAX_CONTEXT_TOKENS]

/-- C1 (amended): the prompt returned by `buildContext` is the selected
history segments followed by the base segments (system prompt and folded
memories), and whenever the code's own base token estimate — the estimate of
the base contents joined with a space — does not already exceed the budget,
that base estimate plus the summed per-message estimates of every selected
history segment stays within the budget. -/
theorem buildContext_history_within_budget (history : List Msg) (memories : List Memory)
    (h : initialTokenCount memories ≤ MAX_CONTEXT_TOKENS) :
    ∃ hist : List Segment,
      buildContext history memories = hist ++ baseSegments memories ∧
      initialTokenCount memories + segmentTokenSum hist ≤ MAX_CONTEXT_TOKENS := by
  refine ⟨(selectHistory MAX_CONTEXT_TOKENS (initialTokenCount memories)
    history.reverse).1.reverse.map (fun m => Segment.mk m.role.str m.content), ?_, ?_⟩
  · rfl
  have hs := selectHistory_sum_le MAX_CONTEXT_TOKENS history.reverse
    (initialTokenCount memories) h
  simpa [segmentTokenSum, List.map_reverse, List.sum_reverse, Function.comp_def] using hs

/-- Concrete instance of the amended C1 theorem: empty history, no memories. -/
theorem buildContext_history_within_budget_witness :
    initialTokenCount [] ≤ MAX_CONTEXT_TOKENS ∧
    ∃ hist : List Segment,
      buildContext [] [] = hist ++ baseSegments [] ∧
      initialTokenCount [] + segmentTokenSum hist ≤ MAX_CONTEXT_TOKENS :=
  ⟨by decide, buildContext_history_within_budget [] [] (by decide)⟩

/-! ## AIAgent.generateAIResponse (ai.service.ts lines 851-875) and the
message pipeline AIAgent.processMessage (lines 726-802) -/

/-- The fixed apology literal of ai.service.ts line 873. -/
def apologyMessage : String :=
  "I apologize, but I encountered an error generating a response. Please try again."

/-- `AIAgent.generateAIResponse` (lines 851-875): `retry` the primary model
up to 3 times; if the attempt that settles resolved to `{response: s}`,
return `s`; any other outcome — retry exhausted, or a resolved value without
a `.response` field (the `'Invalid AI response format'` throw) — is caught
and turned into the fixed apology string.  The function consults only
`LLM_MODEL`; no fallback model appears in this class. -/
def generateAIResponse (run : String → List Segment → Nat → RunOutcome)
    (messages : List Segment) : String :=
  match retryModel (run LLM_MODEL messages) 3 0 with
  | some (.ok s) => s
  | _ => apologyMessage

/-- The agent's external collaborators and ambient effects, as one record:
`run model messages i` is the outcome of the `i`-th `env.AI.run model …`
inference attempt; `embed1Ok`/`embed2Ok` tell whether the embedding call
inside the first/second `storeInMemory` succeeds; `searchOk` and
`searchResults` describe `searchMemory`'s outcome (on any failure it returns
`[]`, ai.service.ts lines 932-935); `clock` samples `Date.now()` at
successive tick indices; `ids` gives the value `generateId()` produces at a
tick. -/
structure AgentEnv where
  run : String → List Segment → Nat → RunOutcome
  embed1Ok : Bool
  embed2Ok : Bool
  searchOk : Bool
  searchResults : List Memory
  clock : Nat → Nat
  ids : Nat → String

/-- What one `processMessage` call returns and writes: the assistant reply,
the messages handed to `saveMessage` in call order, the in-memory
`AgentState` after `saveState` and `trimHistory`, and the next unused clock
tick (used by the streaming layer, which runs after `processMessage`). -/
structure ProcResult where
  assistant : Msg
  savedMessages : List Msg
  state : AgentState
  nextTick : Nat
deriving Repr

/-- `AIAgent.processMessage` (lines 726-802), starting at clock tick `i0`.
Tick usage in source order: `startTime` (726), `generateId` for the user
message (739), the user timestamp (742), two ticks inside the first
`storeInMemory` when its embedding succeeds (`generateId` and the metadata
timestamp, lines 888-893), `generateId` for the assistant message (767), the
assistant timestamp (770), the `responseTime` reading (772), two ticks
inside the second `storeInMemory` when its embedding succeeds, and the
`lastActivity` reading inside `saveState` (508).  There is no emptiness
check on the sanitized content: the pipeline always runs to completion. -/
def processMessage (env : AgentEnv) (i0 : Nat) (st : AgentState)
    (content : String) (userId : Option String) : ProcResult :=
  let startTime := env.clock i0
  let sanitizedContent := sanitizeInput content
  let userContext : UserContext :=
    match userId with
    | some u => { userId := u }
    | none => st.userContext
  let userMessage : Msg :=
    { id := env.ids (i0 + 1), role := .user, content := sanitizedContent
      timestamp := env.clock (i0 + 2), metadata := none }
  let hist1 := st.conversationHistory ++ [userMessage]
  let t := if env.embed1Ok then i0 + 5 else i0 + 3
  let memories := if env.searchOk then env.searchResults else []
  let context := buildContext hist1 memories
  let aiResponse := generateAIResponse env.run context
  let assistantMessage : Msg :=
    { id := env.ids t, role := .assistant, content := aiResponse
      timestamp := env.clock (t + 1)
      metadata := some
        { responseTime := env.clock (t + 2) - startTime
          model := LLM_MODEL
          tokensUsed := estimateTokenCount aiResponse } }
  let hist2 := hist1 ++ [assistantMessage]
  let t2 := if env.embed2Ok then t + 5 else t + 3
  let finalHistory :=
    if hist2.length > MAX_HISTORY_MESSAGES then
      hist2.drop (hist2.length - MAX_HISTORY_MESSAGES)
    else hist2
  { assistant := assistantMessage
    savedMessages := [userMessage, assistantMessage]
    state :=
      { conversationHistory := finalHistory
        userContext := userContext
        activeWorkflows := st.activeWorkflows
        lastActivity := env.clock t2 }
    nextTick := t2 + 1 }

/-- The agent's initial in-memory state (ai.service.ts lines 381-386, before
any stored state is loaded). -/
def initialAgentState : AgentState :=
  { conversationHistory := [], userContext := { userId := "" }
    activeWorkflows := [], lastActivity := 0 }

/-- A benign environment: every inference attempt succeeds with
`"Hello world"`, embeddings and search succeed with no matches, the clock is
the identity (strictly advancing ticks). -/
def demoEnv : AgentEnv :=
  { run := fun _ _ _ => .ok "Hello world"
    embed1Ok := true, embed2Ok := true, searchOk := true, searchResults := []
    clock := fun n => n, ids := fun _ => "id" }

/-! ## C2 theorems -/

/-- C2 fails as stated: the input `"<>"` sanitizes to the empty string, yet
`processMessage` raises no `ValidationError` — no emptiness check exists in
the pipeline — and still persists a user message and returns an assistant
reply. -/
theorem processMessage_accepts_empty_sanitized :
    sanitizeInput "<>" = "" ∧
    (processMessage demoEnv 0 initialAgentState "<>" none).assistant.role = Role.assistant ∧
    (processMessage demoEnv 0 initialAgentState "<>" none).savedMessages.length = 2 :=
  ⟨rfl, rfl, rfl⟩

/-- C2 (amended): `processMessage` performs no emptiness validation at all.
For every input — including one whose sanitized form is empty — it persists
a user message carrying exactly the sanitized content and returns an
assistant reply; it never fails with a `ValidationError`.  (The only
empty-content rejection in the repository is the HTTP layer's falsiness
check of the raw, pre-sanitization body.) -/
theorem processMessage_no_empty_check (env : AgentEnv) (i0 : Nat) (st : AgentState)
    (content : String) (userId : Option String) :
    ∃ u : Msg,
      (processMessage env i0 st content userId).savedMessages =
        [u, (processMessage env i0 st content userId).assistant] ∧
      u.role = Role.user ∧
      u.content = sanitizeInput content ∧
      (processMessage env i0 st content userId).assistant.role = Role.assistant :=
  ⟨_, rfl, rfl, rfl, rfl⟩

/-! ## C3 theorems -/

/-- Unfolding of the three-attempt retry at the primary model. -/
theorem retryModel_three (f : Nat → RunOutcome) :
    retryModel f 3 0 =
      match f 0 with
      | .throws =>
        match f 1 with
        | .throws =>
          match f 2 with
          | .throws => none
          | r => some r
        | r => some r
      | r => some r := rfl

/-- `generateAIResponse` either returns the response of one of the first
three primary-model attempts, or the fixed apology; it consults no other
model and never raises. -/
theorem generateAIResponse_cases (run : String → List Segment → Nat → RunOutcome)
    (messages : List Segment) :
    generateAIResponse run messages = apologyMessage ∨
    ∃ i, i < 3 ∧ run LLM_MODEL messages i = .ok (generateAIResponse run messages) := by
  unfold generateAIResponse
  rw [retryModel_three]
  cases h0 : run LLM_MODEL messages 0 with
  | ok s => exact Or.inr ⟨0, by omega, by rw [h0]⟩
  | invalid => exact Or.inl rfl
  | throws =>
    cases h1 : run LLM_MODEL messages 1 with
    | ok s => exact Or.inr ⟨1, by omega, by rw [h1]⟩
    | invalid => exact Or.inl rfl
    | throws =>
      cases h2 : run LLM_MODEL messages 2 with
      | ok s => exact Or.inr ⟨2, by omega, by rw [h2]⟩
      | invalid => exact Or.inl rfl
      | throws => exact Or.inl rfl

/-- An environment in which every primary-model attempt rejects while the
fallback model would answer successfully. -/
def fallbackEnv : AgentEnv :=
  { run := fun model _ _ =>
      if model = FALLBACK_MODEL then .ok "fallback response" else .throws
    embed1Ok := true, embed2Ok := true, searchOk := true, searchResults := []
    clock := fun n => n, ids := fun _ => "id" }

/-- C3 fails as stated: with the primary model rejecting on every attempt
and the fallback model ready to answer, `processMessage` replies with the
apology, not with the fallback model's answer — `AIAgent.generateAIResponse`
never tries `FALLBACK_MODEL` (that model is referenced only by the separate
`AIService` class, which `processMessage` does not use). -/
theorem processMessage_skips_fallback :
    fallbackEnv.run FALLBACK_MODEL [] 0 = .ok "fallback response" ∧
    fallbackEnv.run FALLBACK_MODEL [] 1 = .ok "fallback response" ∧
    fallbackEnv.run FALLBACK_MODEL [] 2 = .ok "fallback response" ∧
    (processMessage fallbackEnv 0 initialAgentState "Hello" none).assistant.content =
      apologyMessage ∧
    apologyMessage ≠ "fallback response" := by
  refine ⟨rfl, rfl, rfl, rfl, by decide⟩

/-- C3 (amended): the inference step retries the primary model at most three
times; the reply is either some primary attempt's successful response or the
fixed non-empty apology — no fallback model is consulted and nothing is
raised — and the turn's user and assistant messages are persisted in every
case. -/
theorem processMessage_inference_never_raises (env : AgentEnv) (i0 : Nat)
    (st : AgentState) (content : String) (userId : Option String) :
    ∃ msgs : List Segment,
      ((processMessage env i0 st content userId).assistant.content = apologyMessage ∨
        ∃ i, i < 3 ∧ env.run LLM_MODEL msgs i =
          .ok (processMessage env i0 st content userId).assistant.content) ∧
      apologyMessage ≠ "" ∧
      (processMessage env i0 st content userId).savedMessages.length = 2 ∧
      (processMessage env i0 st content userId).savedMessages.getLast? =
        some (processMessage env i0 st content userId).assistant := by
  refine ⟨_, generateAIResponse_cases env.run _, by decide, rfl, rfl⟩

/-! ## C9 theorems -/

/-- An environment whose clock never advances: two consecutive `Date.now()`
calls may well return the same millisecond. -/
def frozenClockEnv : AgentEnv :=
  { run := fun _ _ _ => .ok "Hi there"
    embed1Ok := true, embed2Ok := true, searchOk := true, searchResults := []
    clock := fun _ => 1700000000000, ids := fun _ => "id" }

/-- C9 fails as stated: both timestamps come from `Date.now()`, which can
return the same value twice; with a non-advancing clock the sanitized
content is non-empty and yet the assistant timestamp is not strictly greater
than the user timestamp (they are equal). -/
theorem processMessage_timestamps_can_tie :
    sanitizeInput "Hello" ≠ "" ∧
    ∃ u : Msg,
      (processMessage frozenClockEnv 0 initialAgentState "Hello" none).savedMessages =
        [u, (processMessage frozenClockEnv 0 initialAgentState "Hello" none).assistant] ∧
      u.role = Role.user ∧
      ¬ u.timestamp <
        (processMessage frozenClockEnv 0 initialAgentState "Hello" none).assistant.timestamp := by
  constructor
  · decide
  · refine ⟨_, rfl, rfl, ?_⟩
    decide

/-- C9 (amended): for every monotone clock (as `Date.now()` is), the
assistant message's timestamp is at least — not necessarily strictly above —
the user message's timestamp persisted earlier in the same turn. -/
theorem processMessage_timestamp_order (env : AgentEnv) (i0 : Nat) (st : AgentState)
    (content : String) (userId : Option String) (hmono : Monotone env.clock) :
    ∃ u : Msg,
      (processMessage env i0 st content userId).savedMessages =
        [u, (processMessage env i0 st content userId).assistant] ∧
      u.timestamp ≤ (processMessage env i0 st content userId).assistant.timestamp := by
  refine ⟨_, rfl, ?_⟩
  show env.clock (i0 + 2) ≤ env.clock ((if env.embed1Ok then i0 + 5 else i0 + 3) + 1)
  apply hmono
  by_cases h : env.embed1Ok <;> simp [h]

/-- Concrete instance of the amended C9 theorem at a strictly advancing
clock. -/
theorem processMessage_timestamp_order_witness :
    Monotone demoEnv.clock ∧
    ∃ u : Msg,
      (processMessage demoEnv 0 initialAgentState "Hi" none).savedMessages =
        [u, (processMessage demoEnv 0 initialAgentState "Hi" none).assistant] ∧
      u.timestamp ≤ (processMessage demoEnv 0 initialAgentState "Hi" none).assistant.timestamp :=
  ⟨fun _ _ h => h,
    processMessage_timestamp_order demoEnv 0 initialAgentState "Hi" none (fun _ _ h => h)⟩

/-! ## The WebSocket streaming layer: AIAgent.streamResponse (ai.service.ts
lines 695-710) and AIAgent.handleChatMessage (lines 664-690) -/

/-- The wire messages `handleChatMessage` and `streamResponse` send, with
exactly the fields of the JSON objects of the source: `typing` (line 666)
carries only a timestamp, `token` (lines 701-705) carries the incremental
text and a timestamp, `message_complete` (lines 676-680) carries the
assistant message's id and a timestamp — no content field — and `error`
(lines 683-688) carries a fixed message, the error text and a timestamp. -/
inductive WSEvent where
  | typing (timestamp : Nat)
  | token (content : String) (timestamp : Nat)
  | messageComplete (messageId : String) (timestamp : Nat)
  | errorEvent (message : String) (error : String) (timestamp : Nat)
deriving DecidableEq, Repr

/-- The `content` field of a wire message, when present: only `token`
events carry one. -/
def contentField : WSEvent → Option String
  | .token c _ => some c
  | _ => none

/-- Whether a wire message is the terminal `message_complete` event. -/
def isComplete : WSEvent → Bool
  | .messageComplete _ _ => true
  | _ => false

/-- The word chunks of `streamResponse` (lines 696-699): after splitting on
single spaces, every word except the last is re-suffixed with one space
(`words[i] + (i < words.length - 1 ? ' ' : '')`). -/
def wordChunks : List String → List String
  | [] => []
  | [w] => [w]
  | w :: w2 :: rest => (w ++ " ") :: wordChunks (w2 :: rest)

/-- Character-level companion of `wordChunks`, used only in proofs. -/
def wordChunksChar : List (List Char) → List (List Char)
  | [] => []
  | [w] => [w]
  | w :: w2 :: rest => (w ++ [' ']) :: wordChunksChar (w2 :: rest)

/-- JavaScript `content.split(' ')`: split on every single space, keeping
empty pieces, one more piece than separators (`"".split(' ')` is `[""]`).
`splitOnSpace_eq_split` checks this against Lean's own `String.split`. -/
def splitOnSpace (s : String) : List String :=
  (s.data.splitOn ' ').map String.mk

/-- `AIAgent.streamResponse` (lines 695-710): one `token` event per word
chunk, in order, each stamped with its own `Date.now()` tick starting at
`i0`.  (The artificial 50 ms delay between sends affects only timing.) -/
def streamResponse (clock : Nat → Nat) (i0 : Nat) (content : String) : List WSEvent :=
  (wordChunks (splitOnSpace content)).enum.map
    (fun p => WSEvent.token p.2 (clock (i0 + p.1)))

/-- `AIAgent.handleChatMessage` (lines 664-690), success path: send `typing`
(tick 0), run the full `processMessage` pipeline (ticks from 1), stream the
persisted reply's content token by token, then send one `message_complete`
carrying the reply's id.  Every send targets the single connection `ws`
that delivered the inbound message. -/
def handleChatMessage (env : AgentEnv) (st : AgentState) (content : String)
    (userId : Option String) : List WSEvent × ProcResult :=
  let r := processMessage env 1 st content userId
  let toks := streamResponse env.clock r.nextTick r.assistant.content
  ((WSEvent.typing (env.clock 0) :: toks) ++
      [WSEvent.messageComplete r.assistant.id (env.clock (r.nextTick + toks.length))],
    r)

/-- Concatenation of a list of strings, in order. -/
def concatStrings : List String → String
  | [] => ""
  | s :: rest => s ++ concatStrings rest

/-- The concatenation of the text carried by the `token` events of an event
list. -/
def concatTokens (evs : List WSEvent) : String :=
  concatStrings (evs.filterMap contentField)
/-! ## C4 theorems -/

/-- The split model agrees with Lean's own `String.split` on a single-space
predicate (and, by the probe semantics of both, with JavaScript
`split(' ')`). -/
theorem splitOnSpace_eq_split (s : String) :
    splitOnSpace s = s.split (· == ' ') :=
  (String.split_of_valid s _).symm

theorem wordChunks_map_mk : ∀ L : List (List Char),
    wordChunks (L.map String.mk) = (wordChunksChar L).map String.mk
  | [] => rfl
  | [_] => rfl
  | w :: w2 :: rest => by
    have ih := wordChunks_map_mk (w2 :: rest)
    show (String.mk w ++ " ") :: wordChunks ((w2 :: rest).map String.mk) =
      String.mk (w ++ [' ']) :: (wordChunksChar (w2 :: rest)).map String.mk
    rw [ih]
    rfl

theorem wordChunksChar_flatten : ∀ L : List (List Char),
    (wordChunksChar L).flatten = [' '].intercalate L
  | [] => rfl
  | [w] => by simp [wordChunksChar, List.intercalate]
  | w :: w2 :: rest => by
    have ih := wordChunksChar_flatten (w2 :: rest)
    show (w ++ [' ']) ++ (wordChunksChar (w2 :: rest)).flatten =
      [' '].intercalate (w :: w2 :: rest)
    rw [ih]
    simp [List.intercalate]

theorem concatStrings_map_mk : ∀ L : List (List Char),
    concatStrings (L.map String.mk) = String.mk L.flatten
  | [] => rfl
  | a :: t => by
    show String.mk a ++ concatStrings (t.map String.mk) = String.mk (a :: t).flatten
    rw [concatStrings_map_mk t]
    rfl

/-- Splitting a string on single spaces and re-suffixing every chunk but the
last with a space reassembles exactly the original string — the word-chunk
stream loses nothing. -/
theorem concatStrings_wordChunks_split (s : String) :
    concatStrings (wordChunks (splitOnSpace s)) = s := by
  rw [splitOnSpace, wordChunks_map_mk, concatStrings_map_mk, wordChunksChar_flatten,
    List.intercalate_splitOn]

/-- The token events of `streamResponse` carry exactly the word chunks. -/
theorem filterMap_contentField_streamResponse (clock : Nat → Nat) (i0 : Nat) (c : String) :
    (streamResponse clock i0 c).filterMap contentField =
      wordChunks (splitOnSpace c) := by
  rw [streamResponse, List.filterMap_map]
  rw [show (contentField ∘ fun p : Nat × String => WSEvent.token p.2 (clock (i0 + p.1))) =
    some ∘ Prod.snd from rfl]
  rw [List.filterMap_eq_map, List.enum_map_snd]

/-- Concatenating the `token` events of one `streamResponse` run yields the
streamed content verbatim. -/
theorem concatTokens_streamResponse (clock : Nat → Nat) (i0 : Nat) (c : String) :
    concatTokens (streamResponse clock i0 c) = c := by
  rw [concatTokens, filterMap_contentField_streamResponse, concatStrings_wordChunks_split]

/-- Token concatenation over the exact event shape `handleChatMessage`
produces: a `typing` event, the token stream, then one `message_complete`. -/
theorem concatTokens_stream_shape (t0 tc : Nat) (clock : Nat → Nat) (i0 : Nat)
    (c mid : String) :
    concatTokens ((WSEvent.typing t0 :: streamResponse clock i0 c) ++
      [WSEvent.messageComplete mid tc]) = c := by
  rw [concatTokens, List.filterMap_append]
  rw [show (WSEvent.typing t0 :: streamResponse clock i0 c).filterMap contentField =
    (streamResponse clock i0 c).filterMap contentField from rfl]
  rw [show ([WSEvent.messageComplete mid tc] : List WSEvent).filterMap contentField =
    [] from rfl]
  rw [List.append_nil, filterMap_contentField_streamResponse, concatStrings_wordChunks_split]

/-- C4 fails as stated: in a concrete turn the concatenated token text is
exactly the persisted assistant content (`"Hello world"`), but the final
emitted event — the `message_complete` completion event — carries no
`content` field at all (only the message id), so the concatenation cannot
equal the completion event's content field. -/
theorem streaming_complete_event_lacks_content :
    (handleChatMessage demoEnv initialAgentState "Hi" none).1.getLast?.map isComplete =
      some true ∧
    (handleChatMessage demoEnv initialAgentState "Hi" none).1.getLast?.map contentField =
      some none ∧
    concatTokens (handleChatMessage demoEnv initialAgentState "Hi" none).1 =
      (handleChatMessage demoEnv initialAgentState "Hi" none).2.assistant.content ∧
    (handleChatMessage demoEnv initialAgentState "Hi" none).2.assistant.content ≠ "" := by
  refine ⟨rfl, rfl, ?_, by decide⟩
  exact concatTokens_stream_shape _ _ _ _ _ _

/-- C4 (amended): for every turn, the concatenation of the text carried by
the emitted `token` events equals exactly the content of the persisted
assistant `Message` (streaming is driven by the already-persisted reply, so
no partial content is ever persisted), and the final emitted event is one
`message_complete` event carrying that message's id; the completion event
does not repeat the content. -/
theorem streaming_concat_matches_persisted (env : AgentEnv) (st : AgentState)
    (content : String) (userId : Option String) :
    concatTokens (handleChatMessage env st content userId).1 =
      (handleChatMessage env st content userId).2.assistant.content ∧
    ∃ ts : Nat, (handleChatMessage env st content userId).1.getLast? =
      some (WSEvent.messageComplete
        (handleChatMessage env st content userId).2.assistant.id ts) := by
  constructor
  · exact concatTokens_stream_shape _ _ _ _ _ _
  · exact ⟨_, List.getLast?_concat _⟩

/-! ## C5: delivery of events to connections.

`handleWebSocket` (ai.service.ts lines 571-622) registers every accepted
connection in `activeConnections`, but neither `handleChatMessage` nor
`streamResponse` ever reads that map: every `sendWebSocketMessage` call in
the turn (lines 666, 673, 676, 683, 701) targets the one `ws` argument — the
connection that delivered the inbound message.  The model below records each
send as a (target connection, event) pair. -/

/-- The sends of one `handleChatMessage` turn: every event of the turn is
sent to `sender`, the connection that submitted the message.  The `attached`
list records which connection ids are in `activeConnections` at the time; it
is a faithful parameter of the situation, and — exactly as in the source —
it does not influence the sends. -/
def handleChatMessageSends (env : AgentEnv) (st : AgentState) (content : String)
    (userId : Option String) (attached : List String) (sender : String) :
    List (String × WSEvent) :=
  let _ := attached
  ((handleChatMessage env st content userId).1).map (fun e => (sender, e))

/-- The events a connection `c` receives out of a list of sends. -/
def deliveredTo (sends : List (String × WSEvent)) (c : String) : List WSEvent :=
  (sends.filter (fun p => p.1 == c)).map (fun p => p.2)

/-- C5 fails as stated: with two connections attached to the same agent, a
turn driven by `"connA"` delivers a non-empty stream of events to `"connA"`
and delivers nothing at all to the equally attached `"connB"` — the events
are not broadcast. -/
theorem events_not_broadcast :
    deliveredTo (handleChatMessageSends demoEnv initialAgentState "Hi" none
      ["connA", "connB"] "connA") "connB" = [] ∧
    deliveredTo (handleChatMessageSends demoEnv initialAgentState "Hi" none
      ["connA", "connB"] "connA") "connA" ≠ [] := by
  constructor
  · show deliveredTo (((handleChatMessage demoEnv initialAgentState "Hi" none).1).map
      (fun e => ("connA", e))) "connB" = []
    rw [deliveredTo, List.filter_map]
    rw [show ((fun p : String × WSEvent => p.1 == "connB") ∘ fun e => ("connA", e)) =
      fun _ => false from rfl]
    simp
  · decide

/-- C5 (amended): within one turn, every emitted event is sent only to the
connection that submitted the inbound message; any other connection —
attached or not — receives no event of the turn.  (There is no broadcast:
`activeConnections` is never consulted during a turn.) -/
theorem events_only_to_sender (env : AgentEnv) (st : AgentState) (content : String)
    (userId : Option String) (attached : List String) (sender c : String)
    (h : c ≠ sender) :
    deliveredTo (handleChatMessageSends env st content userId attached sender) c = [] ∧
    deliveredTo (handleChatMessageSends env st content userId attached sender) sender =
      (handleChatMessage env st content userId).1 := by
  constructor
  · rw [handleChatMessageSends, deliveredTo, List.filter_map]
    have hf : ((fun p : String × WSEvent => p.1 == c) ∘ fun e => (sender, e)) =
        fun _ => false := by
      funext e
      simp [Function.comp]
      exact fun hc => h hc.symm
    rw [hf]
    simp
  · rw [handleChatMessageSends, deliveredTo, List.filter_map]
    have hf : ((fun p : String × WSEvent => p.1 == sender) ∘ fun e => (sender, e)) =
        fun _ => true := by
      funext e
      simp [Function.comp]
    rw [hf]
    simp

/-! ## Tool registry (imageTools.ts, class ToolRegistry, lines 319-647) -/

/-- A JSON-ish parameter value.  JavaScript numbers are modelled as `Int`
(no claim involves fractional values); `null` is kept because
`typeof null` is `'object'`. -/
inductive JValue where
  | str (s : String)
  | num (n : Int)
  | bool (b : Bool)
  | arr (l : List JValue)
  | null

/-- JavaScript strict equality `===`, as `Array.prototype.includes` uses it:
value equality on primitives and `null`; two array values are distinct
object references and never compare equal. -/
def JValue.strictEq : JValue → JValue → Bool
  | .str a, .str b => a == b
  | .num a, .num b => a == b
  | .bool a, .bool b => a == b
  | .null, .null => true
  | _, _ => false

/-- `Array.isArray(value) ? 'array' : typeof value` (imageTools.ts
line 501). -/
def typeofVal : JValue → String
  | .str _ => "string"
  | .num _ => "number"
  | .bool _ => "boolean"
  | .arr _ => "array"
  | .null => "object"

/-- How a `JValue` renders inside the enum error message
(`prop.enum.join(', ')`). -/
def JValue.display : JValue → String
  | .str s => s
  | .num n => toString n
  | .bool b => if b then "true" else "false"
  | .arr _ => ""
  | .null => "null"

/-- One property's schema (types/tools.ts `JSONSchema`, restricted to the
fields `validateParameters` reads).  `none` is an absent field. -/
structure PropSchema where
  type : Option String := none
  minLength : Option Nat := none
  maxLength : Option Nat := none
  minimum : Option Int := none
  maximum : Option Int := none
  enum : Option (List JValue) := none

/-- A tool's parameter schema.  Absent `properties`/`required` fields are
modelled as `[]`: in the source an absent field skips the corresponding
loop and an empty one runs it zero times — the same behaviour. -/
structure JSONSchema where
  type : String
  properties : List (String × PropSchema) := []
  required : List String := []

/-- The per-property checks of `validateParameters` (imageTools.ts lines
494-531), in source order: type, string length, numeric range, enum.
JavaScript truthiness is preserved: an absent or empty `type`, and an absent
or zero `minLength`/`maxLength`, skip their check; `minimum`/`maximum` use
an explicit `!== undefined` test, so zero bounds are enforced; an empty
`enum` array is truthy and rejects every value. -/
def validateProp (key : String) (prop : PropSchema) (v : JValue) : Option String :=
  (match prop.type with
    | some t =>
      if t ≠ "" ∧ typeofVal v ≠ t then
        some ("Parameter '" ++ key ++ "' must be of type '" ++ t ++ "', got '" ++
          typeofVal v ++ "'")
      else none
    | none => none) <|>
  (if prop.type = some "string" then
    match v with
    | .str s =>
      if prop.minLength.getD 0 ≠ 0 ∧ s.length < prop.minLength.getD 0 then
        some ("Parameter '" ++ key ++ "' must be at least " ++
          toString (prop.minLength.getD 0) ++ " characters")
      else if prop.maxLength.getD 0 ≠ 0 ∧ s.length > prop.maxLength.getD 0 then
        some ("Parameter '" ++ key ++ "' must be at most " ++
          toString (prop.maxLength.getD 0) ++ " characters")
      else none
    | _ => none
  else none) <|>
  (if prop.type = some "number" then
    match v with
    | .num n =>
      (match prop.minimum with
        | some m =>
          if n < m then
            some ("Parameter '" ++ key ++ "' must be at least " ++ toString m)
          else none
        | none => none) <|>
      (match prop.maximum with
        | some m =>
          if n > m then
            some ("Parameter '" ++ key ++ "' must be at most " ++ toString m)
          else none
        | none => none)
    | _ => none
  else none) <|>
  (match prop.enum with
    | some vs =>
      if vs.any (fun x => JValue.strictEq x v) then none
      else
        some ("Parameter '" ++ key ++ "' must be one of: " ++
          String.intercalate ", " (vs.map JValue.display))
    | none => none)

/-- The per-property loop of `validateParameters` (lines 493-533): iterate
the declared properties in order; a property not present in `params` is
skipped; the first error aborts the walk. -/
def findPropError : List (String × PropSchema) → List (String × JValue) → Option String
  | [], _ => none
  | (k, prop) :: rest, params =>
    match params.lookup k with
    | some v =>
      match validateProp k prop v with
      | some e => some e
      | none => findPropError rest params
    | none => findPropError rest params

/-- `ToolRegistry.validateParameters` (lines 482-536): for an
object-typed schema, every `required` name must be a key of `params`
(first missing one reported); then each declared property present in
`params` is checked.  Keys of `params` that are not declared are never
examined. -/
def validateParameters (params : List (String × JValue)) (schema : JSONSchema) :
    Option String :=
  match (if schema.type = "object" then
      schema.required.find? (fun r => (params.lookup r).isNone)
    else none) with
  | some r => some ("Missing required parameter: " ++ r)
  | none => findPropError schema.properties params

/-- One entry of `rateLimitTracker` (line 322): a call counter and the
window's reset timestamp. -/
structure RateTracker where
  calls : Nat
  resetTime : Nat
deriving DecidableEq, Repr

/-- `Map.prototype.set`: replace the binding of an existing key, otherwise
append. -/
def setAssoc : List (String × RateTracker) → String → RateTracker →
    List (String × RateTracker)
  | [], k, v => [(k, v)]
  | (k2, v2) :: rest, k, v =>
    if k2 == k then (k, v) :: rest else (k2, v2) :: setAssoc rest k v

/-- `ToolRegistry.checkRateLimit` (lines 541-561): fixed window per tool
name.  No tracker yet, or a lapsed window (`now > resetTime`), resets the
counter to 1 and the window to `now + period*1000`; within the window a
counter at or above `maxCalls` denies the call without mutating anything;
otherwise the counter is incremented.  Returns the verdict and the updated
tracker map. -/
def checkRateLimit (tracker : List (String × RateTracker)) (toolName : String)
    (maxCalls period now : Nat) : Bool × List (String × RateTracker) :=
  match tracker.lookup toolName with
  | none => (true, setAssoc tracker toolName ⟨1, now + period * 1000⟩)
  | some tr =>
    if now > tr.resetTime then
      (true, setAssoc tracker toolName ⟨1, now + period * 1000⟩)
    else if tr.calls ≥ maxCalls then
      (false, tracker)
    else
      (true, setAssoc tracker toolName ⟨tr.calls + 1, tr.resetTime⟩)

/-- `ToolResult` (types/tools.ts): `{success, data?, error?,
executionTime?, metadata?}`. -/
structure ToolResult where
  success : Bool
  data : Option JValue := none
  error : Option String := none
  executionTime : Option Nat := none
  metadata : Option (List (String × JValue)) := none

/-- `ToolContext` (types/tools.ts) restricted to the fields the registry
reads (`agentId`, `userId`, `timestamp`); the `env` capability object is
consumed only inside tool bodies, which are abstract here. -/
structure ToolContext where
  userId : Option String := none
  agentId : String
  conversationId : Option String := none
  timestamp : Nat

/-- Outcome of invoking a tool body: a settled `ToolResult`, or a thrown
exception with its `error.message`. -/
inductive ToolOutcome where
  | ok (r : ToolResult)
  | throws (message : String)

/-- A tool's `rateLimit` configuration: `{calls, period}` with the period
in seconds. -/
structure RateLimit where
  calls : Nat
  period : Nat
deriving DecidableEq, Repr

/-- `Tool` (types/tools.ts) restricted to the fields `execute` reads; the
descriptive fields (`category`, `cost`, `requiresAuth`) play no role in
execution. -/
structure Tool where
  name : String
  description : String
  parameters : JSONSchema
  run : List (String × JValue) → ToolContext → ToolOutcome
  rateLimit : Option RateLimit := none

/-- `ToolExecutionLog` (types/tools.ts). -/
structure ToolExecutionLog where
  id : String
  toolName : String
  agentId : String
  userId : Option String
  parameters : List (String × JValue)
  result : ToolResult
  timestamp : Nat
  duration : Nat

/-- The registry's mutable state: the tool catalog, the execution log and
the rate-limit tracker (imageTools.ts lines 320-322). -/
structure RegistryState where
  tools : List (String × Tool) := []
  executionLogs : List ToolExecutionLog := []
  rateLimitTracker : List (String × RateTracker) := []

/-- `ToolRegistry.logExecution` (lines 566-573): push the entry, then
`shift()` one entry off the front when the log exceeds 1000 entries. -/
def logExecution (logs : List ToolExecutionLog) (entry : ToolExecutionLog) :
    List ToolExecutionLog :=
  let logs2 := logs ++ [entry]
  if logs2.length > 1000 then logs2.drop 1 else logs2

/-- `ToolRegistry.execute` (lines 379-441).  `clock` samples `Date.now()`:
tick 0 inside `checkRateLimit`, tick 1 for `startTime`, tick 2 for the
duration reading; `uuid` is the `crypto.randomUUID()` value for the log
entry.  Failure paths — unknown tool, rate limit, validation failure, and a
throwing tool body — return a structured failure result and do NOT log;
only a body that returns (successfully settled promise) reaches
`logExecution`. -/
def ToolRegistry.execute (reg : RegistryState) (name : String)
    (params : List (String × JValue)) (context : ToolContext)
    (clock : Nat → Nat) (uuid : String) : ToolResult × RegistryState :=
  match reg.tools.lookup name with
  | none => ({ success := false, error := some ("Tool '" ++ name ++ "' not found") }, reg)
  | some tool =>
    let rate : Bool × RegistryState :=
      match tool.rateLimit with
      | some rl =>
        let c := checkRateLimit reg.rateLimitTracker name rl.calls rl.period (clock 0)
        (c.1, { reg with rateLimitTracker := c.2 })
      | none => (true, reg)
    if ¬ rate.1 then
      ({ success := false,
         error := some ("Rate limit exceeded for tool '" ++ name ++
           "'. Please try again later.") }, rate.2)
    else
      match validateParameters params tool.parameters with
      | some e =>
        ({ success := false, error := some ("Parameter validation failed: " ++ e) },
          rate.2)
      | none =>
        match tool.run params context with
        | .ok result =>
          let duration := clock 2 - clock 1
          let entry : ToolExecutionLog :=
            { id := uuid, toolName := name, agentId := context.agentId,
              userId := context.userId, parameters := params, result := result,
              timestamp := context.timestamp, duration := duration }
          ({ result with executionTime := some duration },
            { rate.2 with executionLogs := logExecution rate.2.executionLogs entry })
        | .throws msg =>
          let duration := clock 2 - clock 1
          ({ success := false,
             error := some (if msg = "" then "Tool execution failed" else msg),
             executionTime := some duration }, rate.2)

/-! ## C6 theorems -/

/-- A context for concrete runs. -/
def demoContext : ToolContext := { agentId := "agent1", timestamp := 0 }

/-- A registered tool whose body always throws. -/
def throwingTool : Tool :=
  { name := "boom", description := "always throws", parameters := { type := "object" },
    run := fun _ _ => .throws "kaput" }

def throwingRegistry : RegistryState :=
  { tools := [("boom", throwingTool)], executionLogs := [], rateLimitTracker := [] }

/-- C6 fails as stated: a call for an unknown tool and a call whose body
throws both return structured failures yet append nothing to the execution
log — only calls whose body returns are logged. -/
theorem execute_failures_not_logged :
    (ToolRegistry.execute {} "missing" [] demoContext (fun n => n) "u1").1.success = false ∧
    (ToolRegistry.execute {} "missing" [] demoContext
      (fun n => n) "u1").2.executionLogs.length = 0 ∧
    (ToolRegistry.execute throwingRegistry "boom" [] demoContext
      (fun n => n) "u2").1.success = false ∧
    (ToolRegistry.execute throwingRegistry "boom" [] demoContext
      (fun n => n) "u2").2.executionLogs.length = 0 :=
  ⟨rfl, rfl, rfl, rfl⟩

/-- Appending through `logExecution` keeps the log at or under its 1000
entry capacity (the oldest entry is shifted off once it would overflow). -/
theorem logExecution_length_le (logs : List ToolExecutionLog) (entry : ToolExecutionLog)
    (h : logs.length ≤ 1000) : (logExecution logs entry).length ≤ 1000 := by
  show (if (logs ++ [entry]).length > 1000 then List.drop 1 (logs ++ [entry])
    else logs ++ [entry]).length ≤ 1000
  split
  · rename_i hgt
    simp only [List.length_drop, List.length_append, List.length_cons,
      List.length_nil] at *
    omega
  · rename_i hle
    simp only [List.length_append, List.length_cons, List.length_nil] at *
    omega

/-- Any one `execute` call either leaves the log untouched or passes exactly
one new entry, bearing the requested tool name, through `logExecution`. -/
theorem execute_log_change (reg : RegistryState) (name : String)
    (params : List (String × JValue)) (context : ToolContext) (clock : Nat → Nat)
    (uuid : String) :
    (ToolRegistry.execute reg name params context clock uuid).2.executionLogs =
        reg.executionLogs ∨
      ∃ entry : ToolExecutionLog, entry.toolName = name ∧
        (ToolRegistry.execute reg name params context clock uuid).2.executionLogs =
          logExecution reg.executionLogs entry := by
  cases hl : reg.tools.lookup name with
  | none => left; simp [ToolRegistry.execute, hl]
  | some tool =>
    cases hrl : tool.rateLimit with
    | none =>
      cases hv : validateParameters params tool.parameters with
      | some e => left; simp [ToolRegistry.execute, hl, hrl, hv]
      | none =>
        cases hb : tool.run params context with
        | ok result =>
          right
          refine ⟨⟨uuid, name, context.agentId, context.userId, params, result,
            context.timestamp, clock 2 - clock 1⟩, rfl, ?_⟩
          simp [ToolRegistry.execute, hl, hrl, hv, hb]
        | throws m => left; simp [ToolRegistry.execute, hl, hrl, hv, hb]
    | some rl =>
      by_cases hc : (checkRateLimit reg.rateLimitTracker name rl.calls rl.period (clock 0)).1
      · cases hv : validateParameters params tool.parameters with
        | some e => left; simp [ToolRegistry.execute, hl, hrl, hv, hc]
        | none =>
          cases hb : tool.run params context with
          | ok result =>
            right
            refine ⟨⟨uuid, name, context.agentId, context.userId, params, result,
              context.timestamp, clock 2 - clock 1⟩, rfl, ?_⟩
            simp [ToolRegistry.execute, hl, hrl, hv, hb, hc]
          | throws m => left; simp [ToolRegistry.execute, hl, hrl, hv, hb, hc]
      · left; simp [ToolRegistry.execute, hl, hrl, hc]

/-- Concrete instance of the amended C5 theorem. -/
theorem events_only_to_sender_witness :
    ("connB" : String) ≠ "connA" ∧
    (deliveredTo (handleChatMessageSends demoEnv initialAgentState "Hi" none
      ["connA", "connB"] "connA") "connB" = [] ∧
    deliveredTo (handleChatMessageSends demoEnv initialAgentState "Hi" none
      ["connA", "connB"] "connA") "connA" =
      (handleChatMessage demoEnv initialAgentState "Hi" none).1) :=
  ⟨by decide, events_only_to_sender demoEnv initialAgentState "Hi" none
    ["connA", "connB"] "connA" "connB" (by decide)⟩

/-! ## C8 theorems -/

/-- First call of a window for a tool with no tracker yet: allowed, counter
set to 1, window reset time set `period` seconds ahead. -/
theorem checkRateLimit_fresh (name : String) (mc p now : Nat) :
    checkRateLimit [] name mc p now = (true, [(name, ⟨1, now + p * 1000⟩)]) := rfl

/-- A call inside the window while the counter is below the maximum:
allowed, counter incremented, reset time unchanged. -/
theorem checkRateLimit_within (name : String) (mc p now c rt : Nat)
    (hwin : ¬ now > rt) (hc : ¬ c ≥ mc) :
    checkRateLimit [(name, ⟨c, rt⟩)] name mc p now = (true, [(name, ⟨c + 1, rt⟩)]) := by
  simp [checkRateLimit, List.lookup, hwin, hc, setAssoc]

/-- A call inside the window once the counter has reached the maximum:
denied, tracker untouched. -/
theorem checkRateLimit_blocked (name : String) (mc p now c rt : Nat)
    (hwin : ¬ now > rt) (hc : c ≥ mc) :
    checkRateLimit [(name, ⟨c, rt⟩)] name mc p now = (false, [(name, ⟨c, rt⟩)]) := by
  simp [checkRateLimit, List.lookup, hwin, hc]

/-- A call after the window has lapsed: allowed, counter reset to 1, a new
window opened. -/
theorem checkRateLimit_lapsed (name : String) (mc p now c rt : Nat) (hwin : now > rt) :
    checkRateLimit [(name, ⟨c, rt⟩)] name mc p now =
      (true, [(name, ⟨1, now + p * 1000⟩)]) := by
  simp [checkRateLimit, List.lookup, hwin, setAssoc]

/-- A tool limited to 2 calls per 60-second window whose body always
succeeds and whose schema accepts the empty parameter object. -/
def echoTool : Tool :=
  { name := "echo", description := "replies", parameters := { type := "object" },
    run := fun _ _ => .ok { success := true },
    rateLimit := some { calls := 2, period := 60 } }

def echoRegistry : RegistryState :=
  { tools := [("echo", echoTool)], executionLogs := [], rateLimitTracker := [] }

/-- One `execute` step on a registry holding only `echoTool`, for any log
and tracker state: the outcome is fully determined by `checkRateLimit`. -/
theorem execute_echo_step (logs : List ToolExecutionLog)
    (tr : List (String × RateTracker)) (clock : Nat → Nat) (uuid : String) :
    ToolRegistry.execute
      { tools := [("echo", echoTool)], executionLogs := logs, rateLimitTracker := tr }
      "echo" [] demoContext clock uuid =
    (if (checkRateLimit tr "echo" 2 60 (clock 0)).1 then
      ({ success := true, executionTime := some (clock 2 - clock 1) },
        { tools := [("echo", echoTool)],
          executionLogs := logExecution logs
            { id := uuid, toolName := "echo", agentId := demoContext.agentId,
              userId := demoContext.userId, parameters := [],
              result := { success := true }, timestamp := demoContext.timestamp,
              duration := clock 2 - clock 1 },
          rateLimitTracker := (checkRateLimit tr "echo" 2 60 (clock 0)).2 })
    else
      ({ success := false,
         error := some "Rate limit exceeded for tool 'echo'. Please try again later." },
        { tools := [("echo", echoTool)], executionLogs := logs,
          rateLimitTracker := (checkRateLimit tr "echo" 2 60 (clock 0)).2 })) := by
  by_cases hc : (checkRateLimit tr "echo" 2 60 (clock 0)).1 <;>
    simp [ToolRegistry.execute, echoTool, validateParameters, findPropError, hc,
      List.lookup]

/-- The four-call scenario of the claim, with one constant clock per call:
two calls at `t1` and `t2`, a third at `t3`, a fourth at `t4`. -/
def rateLimitScenario (t1 t2 t3 t4 : Nat) :
    ToolResult × ToolResult × ToolResult × ToolResult × RegistryState :=
  let r1 := ToolRegistry.execute echoRegistry "echo" [] demoContext (fun _ => t1) "u1"
  let r2 := ToolRegistry.execute r1.2 "echo" [] demoContext (fun _ => t2) "u2"
  let r3 := ToolRegistry.execute r2.2 "echo" [] demoContext (fun _ => t3) "u3"
  let r4 := ToolRegistry.execute r3.2 "echo" [] demoContext (fun _ => t4) "u4"
  (r1.1, r2.1, r3.1, r4.1, r4.2)

/-- C8: with `maxCalls = 2` per 60-second window, three consecutive calls
inside the window yield success, success, then a structured rate-limit
failure (not an exception); a fourth call issued after the window's reset
time has elapsed succeeds again, with the counter reset to 1 for the new
window. -/
theorem rate_limit_two_per_minute (t1 t2 t3 t4 : Nat)
    (h2 : t2 ≤ t1 + 60000) (h3 : t3 ≤ t1 + 60000) (h4 : t4 > t1 + 60000) :
    (rateLimitScenario t1 t2 t3 t4).1.success = true ∧
    (rateLimitScenario t1 t2 t3 t4).2.1.success = true ∧
    (rateLimitScenario t1 t2 t3 t4).2.2.1.success = false ∧
    (rateLimitScenario t1 t2 t3 t4).2.2.1.error =
      some "Rate limit exceeded for tool 'echo'. Please try again later." ∧
    (rateLimitScenario t1 t2 t3 t4).2.2.2.1.success = true ∧
    (rateLimitScenario t1 t2 t3 t4).2.2.2.2.rateLimitTracker =
      [("echo", ⟨1, t4 + 60 * 1000⟩)] := by
  have hw2 : ¬ t2 > t1 + 60 * 1000 := by omega
  have hw3 : ¬ t3 > t1 + 60 * 1000 := by omega
  have hw4 : t4 > t1 + 60 * 1000 := by omega
  have hc1 : ¬ (1 : Nat) ≥ 2 := by omega
  have hc2 : (2 : Nat) ≥ 2 := Nat.le_refl 2
  have e1 : ToolRegistry.execute
      { tools := [("echo", echoTool)], executionLogs := [], rateLimitTracker := [] }
      "echo" [] demoContext (fun _ => t1) "u1" =
      ({ success := true, executionTime := some (t1 - t1) },
        { tools := [("echo", echoTool)],
          executionLogs := [⟨"u1", "echo", "agent1", none, [], { success := true },
            0, t1 - t1⟩],
          rateLimitTracker := [("echo", ⟨1, t1 + 60 * 1000⟩)] }) := by
    rw [execute_echo_step, checkRateLimit_fresh]
    rfl
  have e2 : ToolRegistry.execute
      { tools := [("echo", echoTool)],
        executionLogs := [⟨"u1", "echo", "agent1", none, [], { success := true },
          0, t1 - t1⟩],
        rateLimitTracker := [("echo", ⟨1, t1 + 60 * 1000⟩)] }
      "echo" [] demoContext (fun _ => t2) "u2" =
      ({ success := true, executionTime := some (t2 - t2) },
        { tools := [("echo", echoTool)],
          executionLogs := [⟨"u1", "echo", "agent1", none, [], { success := true },
            0, t1 - t1⟩, ⟨"u2", "echo", "agent1", none, [], { success := true },
            0, t2 - t2⟩],
          rateLimitTracker := [("echo", ⟨2, t1 + 60 * 1000⟩)] }) := by
    rw [execute_echo_step,
      checkRateLimit_within "echo" 2 60 t2 1 (t1 + 60 * 1000) hw2 hc1]
    rfl
  have e3 : ToolRegistry.execute
      { tools := [("echo", echoTool)],
        executionLogs := [⟨"u1", "echo", "agent1", none, [], { success := true },
          0, t1 - t1⟩, ⟨"u2", "echo", "agent1", none, [], { success := true },
          0, t2 - t2⟩],
        rateLimitTracker := [("echo", ⟨2, t1 + 60 * 1000⟩)] }
      "echo" [] demoContext (fun _ => t3) "u3" =
      ({ success := false,
         error := some "Rate limit exceeded for tool 'echo'. Please try again later." },
        { tools := [("echo", echoTool)],
          executionLogs := [⟨"u1", "echo", "agent1", none, [], { success := true },
            0, t1 - t1⟩, ⟨"u2", "echo", "agent1", none, [], { success := true },
            0, t2 - t2⟩],
          rateLimitTracker := [("echo", ⟨2, t1 + 60 * 1000⟩)] }) := by
    rw [execute_echo_step,
      checkRateLimit_blocked "echo" 2 60 t3 2 (t1 + 60 * 1000) hw3 hc2]
    rfl
  have e4 : ToolRegistry.execute
      { tools := [("echo", echoTool)],
        executionLogs := [⟨"u1", "echo", "agent1", none, [], { success := true },
          0, t1 - t1⟩, ⟨"u2", "echo", "agent1", none, [], { success := true },
          0, t2 - t2⟩],
        rateLimitTracker := [("echo", ⟨2, t1 + 60 * 1000⟩)] }
      "echo" [] demoContext (fun _ => t4) "u4" =
      ({ success := true, executionTime := some (t4 - t4) },
        { tools := [("echo", echoTool)],
          executionLogs := [⟨"u1", "echo", "agent1", none, [], { success := true },
            0, t1 - t1⟩, ⟨"u2", "echo", "agent1", none, [], { success := true },
            0, t2 - t2⟩, ⟨"u4", "echo", "agent1", none, [], { success := true },
            0, t4 - t4⟩],
          rateLimitTracker := [("echo", ⟨1, t4 + 60 * 1000⟩)] }) := by
    rw [execute_echo_step,
      checkRateLimit_lapsed "echo" 2 60 t4 2 (t1 + 60 * 1000) hw4]
    rfl
  show (rateLimitScenario t1 t2 t3 t4).1.success = true ∧ _
  simp only [rateLimitScenario, echoRegistry]
  rw [e1]
  dsimp only
  rw [e2]
  dsimp only
  rw [e3]
  dsimp only
  rw [e4]
  exact ⟨rfl, rfl, rfl, rfl, rfl, rfl⟩

/-- Concrete instance of the C8 theorem: calls at 1000, 2000, 3000 ms and a
fourth at 62000 ms, past the window that closes at 61000 ms. -/
theorem rate_limit_two_per_minute_witness :
    (2000 ≤ 1000 + 60000 ∧ 3000 ≤ 1000 + 60000 ∧ 62000 > 1000 + 60000) ∧
    ((rateLimitScenario 1000 2000 3000 62000).1.success = true ∧
    (rateLimitScenario 1000 2000 3000 62000).2.1.success = true ∧
    (rateLimitScenario 1000 2000 3000 62000).2.2.1.success = false ∧
    (rateLimitScenario 1000 2000 3000 62000).2.2.1.error =
      some "Rate limit exceeded for tool 'echo'. Please try again later." ∧
    (rateLimitScenario 1000 2000 3000 62000).2.2.2.1.success = true ∧
    (rateLimitScenario 1000 2000 3000 62000).2.2.2.2.rateLimitTracker =
      [("echo", ⟨1, 62000 + 60 * 1000⟩)]) :=
  ⟨by decide, rate_limit_two_per_minute 1000 2000 3000 62000
    (by decide) (by decide) (by decide)⟩

/-! ## C10 theorems -/

theorem lookup_append_left {α : Type} (k : String) :
    ∀ (l1 l2 : List (String × α)), (l1.lookup k).isSome →
      (l1 ++ l2).lookup k = l1.lookup k
  | [], _, h => by simp [List.lookup] at h
  | (a, b) :: t, l2, h => by
    by_cases hk : k == a
    · simp [List.lookup, hk]
    · simp only [List.lookup, hk, List.cons_append] at h ⊢
      exact lookup_append_left k t l2 h

theorem lookup_append_right {α : Type} (k : String) :
    ∀ (l1 l2 : List (String × α)), l1.lookup k = none →
      (l1 ++ l2).lookup k = l2.lookup k
  | [], _, _ => rfl
  | (a, b) :: t, l2, h => by
    by_cases hk : k == a
    · simp [List.lookup, hk] at h
    · simp only [List.lookup, hk, List.cons_append] at h ⊢
      exact lookup_append_right k t l2 h

theorem lookup_eq_none_of_not_mem_keys {α : Type} (k : String) :
    ∀ (l : List (String × α)), k ∉ l.map Prod.fst → l.lookup k = none
  | [], _ => rfl
  | (a, b) :: t, h => by
    simp only [List.map_cons, List.mem_cons, not_or] at h
    have ha : (k == a) = false := by
      simp only [beq_eq_false_iff_ne, ne_eq]
      exact h.1
    simp only [List.lookup, ha]
    exact lookup_eq_none_of_not_mem_keys k t (h.2)

/-- Appending parameters whose keys are not declared properties does not
change the outcome of the per-property walk. -/
theorem findPropError_append_extras :
    ∀ (props : List (String × PropSchema)) (params extras : List (String × JValue)),
      findPropError props params = none →
      (∀ kp ∈ props, kp.1 ∉ extras.map Prod.fst) →
      findPropError props (params ++ extras) = none
  | [], _, _, _, _ => rfl
  | (k, prop) :: rest, params, extras, h, hd => by
    have hk : k ∉ extras.map Prod.fst := hd (k, prop) (List.mem_cons_self _ _)
    have hrest : ∀ kp ∈ rest, kp.1 ∉ extras.map Prod.fst :=
      fun kp hkp => hd kp (List.mem_cons_of_mem _ hkp)
    cases hp : params.lookup k with
    | none =>
      have hpe : (params ++ extras).lookup k = none := by
        rw [lookup_append_right k params extras hp]
        exact lookup_eq_none_of_not_mem_keys k extras hk
      simp only [findPropError, hp] at h
      simp only [findPropError, hpe]
      exact findPropError_append_extras rest params extras h hrest
    | some v =>
      have hpe : (params ++ extras).lookup k = some v := by
        rw [lookup_append_left k params extras (by simp [hp])]
        exact hp
      simp only [findPropError, hp] at h
      cases hv : validateProp k prop v with
      | some e => rw [hv] at h; simp at h
      | none =>
        rw [hv] at h
        simp only [findPropError, hpe, hv]
        exact findPropError_append_extras rest params extras h hrest

/-- Appending parameters never removes a required key. -/
theorem required_find_none (required : List String) (params extras : List (String × JValue))
    (h : required.find? (fun r => (params.lookup r).isNone) = none) :
    required.find? (fun r => ((params ++ extras).lookup r).isNone) = none := by
  rw [List.find?_eq_none] at h ⊢
  intro r hr
  have hs := h r hr
  cases hp : params.lookup r with
  | none => rw [hp] at hs; simp at hs
  | some v =>
    rw [lookup_append_left r params extras (by simp [hp]), hp]
    simp

/-- Validation ignores undeclared parameters: a parameter object that passes
validation still passes after arbitrary extra keys not listed in the
schema's properties are appended. -/
theorem validateParameters_ignores_extras (schema : JSONSchema)
    (params extras : List (String × JValue))
    (hvalid : validateParameters params schema = none)
    (hdisj : ∀ kp ∈ schema.properties, kp.1 ∉ extras.map Prod.fst) :
    validateParameters (params ++ extras) schema = none := by
  unfold validateParameters at hvalid ⊢
  by_cases ht : schema.type = "object"
  · rw [if_pos ht] at hvalid ⊢
    cases hr : schema.required.find? (fun r => (params.lookup r).isNone) with
    | some r => rw [hr] at hvalid; simp at hvalid
    | none =>
      rw [hr] at hvalid
      rw [required_find_none _ _ _ hr]
      exact findPropError_append_extras _ _ _ hvalid hdisj
  · rw [if_neg ht] at hvalid ⊢
    exact findPropError_append_extras _ _ _ hvalid hdisj

/-- C10: for a registered tool with no rate limit, a parameter object
containing all required keys and schema-conforming declared values still
validates after arbitrary extra keys (not listed in the schema's
properties) are appended, and `execute` hands the whole parameter object —
extras included, unchanged — to the tool body, whose settled result it
returns (stamped with the measured execution time). -/
theorem execute_ignores_undeclared_params (reg : RegistryState) (tool : Tool)
    (params extras : List (String × JValue)) (context : ToolContext)
    (clock : Nat → Nat) (uuid : String) (res : ToolResult)
    (hreg : reg.tools.lookup tool.name = some tool)
    (hrl : tool.rateLimit = none)
    (hvalid : validateParameters params tool.parameters = none)
    (hdisj : ∀ kp ∈ tool.parameters.properties, kp.1 ∉ extras.map Prod.fst)
    (hrun : tool.run (params ++ extras) context = .ok res) :
    validateParameters (params ++ extras) tool.parameters = none ∧
    (ToolRegistry.execute reg tool.name (params ++ extras) context clock uuid).1 =
      { res with executionTime := some (clock 2 - clock 1) } := by
  have hv := validateParameters_ignores_extras tool.parameters params extras hvalid hdisj
  refine ⟨hv, ?_⟩
  simp [ToolRegistry.execute, hreg, hrl, hv, hrun]

/-- A schema-validated tool used to instantiate the C10 theorem. -/
def extrasTool : Tool :=
  { name := "greet", description := "greets someone",
    parameters :=
      { type := "object",
        properties := [("who", { type := some "string", minLength := some 2 })],
        required := ["who"] },
    run := fun _ _ => .ok { success := true } }

def extrasRegistry : RegistryState :=
  { tools := [("greet", extrasTool)], executionLogs := [], rateLimitTracker := [] }

/-- Concrete instance of the C10 theorem: a valid `who` parameter plus an
undeclared `verbose` extra. -/
theorem execute_ignores_undeclared_params_witness :
    (extrasRegistry.tools.lookup extrasTool.name = some extrasTool ∧
     extrasTool.rateLimit = none ∧
     validateParameters [("who", JValue.str "world")] extrasTool.parameters = none ∧
     (∀ kp ∈ extrasTool.parameters.properties,
        kp.1 ∉ ([("verbose", JValue.bool true)].map Prod.fst)) ∧
     extrasTool.run ([("who", JValue.str "world")] ++ [("verbose", JValue.bool true)])
       demoContext = .ok { success := true }) ∧
    (validateParameters ([("who", JValue.str "world")] ++ [("verbose", JValue.bool true)])
        extrasTool.parameters = none ∧
      (ToolRegistry.execute extrasRegistry extrasTool.name
        ([("who", JValue.str "world")] ++ [("verbose", JValue.bool true)])
        demoContext (fun _ => 7) "u").1 =
        { success := true, executionTime := some (7 - 7) }) :=
  ⟨⟨rfl, rfl, rfl, by decide, rfl⟩,
    execute_ignores_undeclared_params extrasRegistry extrasTool
      [("who", JValue.str "world")] [("verbose", JValue.bool true)] demoContext
      (fun _ => 7) "u" { success := true } rfl rfl rfl (by decide) rfl⟩

/-! ## Workflows: AIAgent.triggerWorkflow (ai.service.ts lines 991-1010) and
AIAgent.updateWorkflowStatus (lines 1015-1033) -/

/-- The in-memory side of `updateWorkflowStatus` (lines 1025-1028):
`find` the first record with the id and overwrite its status — whatever the
previous status was. -/
def updateFirstStatus (workflowId : String) (status : WStatus) :
    List WorkflowRecord → List WorkflowRecord
  | [] => []
  | w :: rest =>
    if w.id == workflowId then { w with status := status } :: rest
    else w :: updateFirstStatus workflowId status rest

/-- `AIAgent.triggerWorkflow` (lines 991-1010): insert a `'pending'` row
into the `workflows` table, push a pending record onto
`state.activeWorkflows`, save state, return the generated id.  `workflowId`
is the `generateId()` value; `createdAt` and `savedAt` are the two
`Date.now()` readings (insert and `saveState`). -/
def triggerWorkflow (st : AgentState) (table : List WorkflowRow) (name : String)
    (params : String) (workflowId : String) (createdAt savedAt : Nat) :
    String × AgentState × List WorkflowRow :=
  (workflowId,
    { st with
        activeWorkflows :=
          st.activeWorkflows ++ [{ id := workflowId, name := name, status := .pending }],
        lastActivity := savedAt },
    table ++ [{ id := workflowId, name := name, status := .pending, params := params,
                result := none, createdAt := createdAt, completedAt := none }])

/-- `AIAgent.updateWorkflowStatus` (lines 1015-1033): an unconditional SQL
`UPDATE … WHERE id = ?` — status, serialized result and `completed_at` are
overwritten on every row with the id, with no check that the row exists or
that its current status is non-terminal — then the first matching in-memory
record's status is overwritten, and state is saved. -/
def updateWorkflowStatus (st : AgentState) (table : List WorkflowRow)
    (workflowId : String) (status : WStatus) (result : Option String)
    (completedAt savedAt : Nat) : AgentState × List WorkflowRow :=
  ({ st with
      activeWorkflows := updateFirstStatus workflowId status st.activeWorkflows,
      lastActivity := savedAt },
    table.map (fun r =>
      if r.id == workflowId then
        { r with status := status, result := result, completedAt := some completedAt }
      else r))

/-! ## C7 theorems -/

def completedWorkflowState : AgentState :=
  { conversationHistory := [], userContext := { userId := "" },
    activeWorkflows := [{ id := "w1", name := "job", status := .completed }],
    lastActivity := 0 }

def completedWorkflowTable : List WorkflowRow :=
  [{ id := "w1", name := "job", status := .completed, params := "[]", result := none,
     createdAt := 0, completedAt := some 5 }]

/-- C7 fails as stated: a workflow already in the terminal status
`completed` is moved back to `running` by a subsequent
`updateWorkflowStatus` call, both in the SQL table and in the in-memory
record — terminal states are not enforced as final. -/
theorem updateWorkflowStatus_overwrites_terminal :
    ((updateWorkflowStatus completedWorkflowState completedWorkflowTable "w1"
        .running none 9 9).1.activeWorkflows.map WorkflowRecord.status =
      [.running]) ∧
    ((updateWorkflowStatus completedWorkflowState completedWorkflowTable "w1"
        .running none 9 9).2.map WorkflowRow.status = [.running]) :=
  ⟨rfl, rfl⟩

/-- C7 (amended): every workflow created by `triggerWorkflow` starts in
status `pending` (in the SQL row and in the in-memory record), and
`updateWorkflowStatus` overwrites the status of every row bearing the id
unconditionally — the requested status is written whatever the previous
status was, so `completed` and `failed` are not final. -/
theorem workflow_pending_start_and_unconditional_update (st : AgentState)
    (table : List WorkflowRow) (name params workflowId : String)
    (createdAt savedAt : Nat) (wid : String) (status : WStatus)
    (result : Option String) (completedAt savedAt2 : Nat) (r : WorkflowRow)
    (hr : r ∈ table) (hid : r.id = wid) :
    (triggerWorkflow st table name params workflowId createdAt savedAt).1 =
      workflowId ∧
    (triggerWorkflow st table name params workflowId createdAt
        savedAt).2.1.activeWorkflows =
      st.activeWorkflows ++ [{ id := workflowId, name := name, status := .pending }] ∧
    (triggerWorkflow st table name params workflowId createdAt savedAt).2.2 =
      table ++ [{ id := workflowId, name := name, status := .pending, params := params,
                  result := none, createdAt := createdAt, completedAt := none }] ∧
    { r with status := status, result := result, completedAt := some completedAt } ∈
      (updateWorkflowStatus st table wid status result completedAt savedAt2).2 := by
  refine ⟨rfl, rfl, rfl, ?_⟩
  show { r with status := status, result := result, completedAt := some completedAt } ∈
    table.map (fun r =>
      if r.id == wid then
        { r with status := status, result := result, completedAt := some completedAt }
      else r)
  have hmem := List.mem_map_of_mem (fun r : WorkflowRow =>
    if r.id == wid then
      { r with status := status, result := result, completedAt := some completedAt }
    else r) hr
  simpa [hid] using hmem

/-- Concrete instance of the amended C7 theorem, run against a workflow
whose current status is the terminal `completed`. -/
theorem workflow_pending_start_and_unconditional_update_witness :
    ((completedWorkflowTable.head?.map (fun r => r ∈ completedWorkflowTable ∧
      r.id = "w1")).getD False) ∧
    ((triggerWorkflow completedWorkflowState completedWorkflowTable "job2" "[]"
        "w2" 3 4).1 = "w2" ∧
    (triggerWorkflow completedWorkflowState completedWorkflowTable "job2" "[]"
        "w2" 3 4).2.1.activeWorkflows =
      completedWorkflowState.activeWorkflows ++
        [{ id := "w2", name := "job2", status := .pending }] ∧
    (triggerWorkflow completedWorkflowState completedWorkflowTable "job2" "[]"
        "w2" 3 4).2.2 =
      completedWorkflowTable ++ [{ id := "w2", name := "job2", status := .pending,
                                   params := "[]", result := none, createdAt := 3,
                                   completedAt := none }] ∧
    { id := "w1", name := "job", status := WStatus.running, params := "[]",
        result := (none : Option String), createdAt := 0, completedAt := some 9 } ∈
      (updateWorkflowStatus completedWorkflowState completedWorkflowTable "w1"
        .running none 9 9).2) := by
  constructor
  · exact ⟨List.mem_cons_self _ _, rfl⟩
  · exact workflow_pending_start_and_unconditional_update completedWorkflowState
      completedWorkflowTable "job2" "[]" "w2" 3 4 "w1" .running none 9 9
      { id := "w1", name := "job", status := .completed, params := "[]", result := none,
        createdAt := 0, completedAt := some 5 }
      (List.mem_cons_self _ _) rfl

/-- C6 (amended), path by path: an `execute` call leaves the execution log
untouched on the unknown-tool path, on the rate-limited path, on the
parameter-validation-failure path and on the thrown-body path; when the
call reaches the tool body and the body returns, the log becomes exactly
`logExecution` of the old log and the one entry of this call (the
requested tool name, this call's parameters and the body's result) — one
appended entry, the oldest shifted off if the log would exceed 1000; and
the 1000-entry bound is preserved by every call. -/
theorem execute_logs_iff_body_returns (reg : RegistryState) (name : String)
    (params : List (String × JValue)) (context : ToolContext) (clock : Nat → Nat)
    (uuid : String) (h : reg.executionLogs.length ≤ 1000) :
    (reg.tools.lookup name = none →
      (ToolRegistry.execute reg name params context clock uuid).2.executionLogs =
        reg.executionLogs) ∧
    (∀ tool : Tool, reg.tools.lookup name = some tool →
      (∀ rl : RateLimit, tool.rateLimit = some rl →
        (checkRateLimit reg.rateLimitTracker name rl.calls rl.period (clock 0)).1 =
          false →
        (ToolRegistry.execute reg name params context clock uuid).2.executionLogs =
          reg.executionLogs) ∧
      ((tool.rateLimit = none ∨ ∃ rl : RateLimit, tool.rateLimit = some rl ∧
          (checkRateLimit reg.rateLimitTracker name rl.calls rl.period (clock 0)).1 =
            true) →
        ((∃ e, validateParameters params tool.parameters = some e) →
          (ToolRegistry.execute reg name params context clock uuid).2.executionLogs =
            reg.executionLogs) ∧
        (validateParameters params tool.parameters = none →
          (∀ m, tool.run params context = .throws m →
            (ToolRegistry.execute reg name params context clock
              uuid).2.executionLogs = reg.executionLogs) ∧
          (∀ res, tool.run params context = .ok res →
            (ToolRegistry.execute reg name params context clock
              uuid).2.executionLogs =
              logExecution reg.executionLogs
                { id := uuid, toolName := name, agentId := context.agentId,
                  userId := context.userId, parameters := params, result := res,
                  timestamp := context.timestamp,
                  duration := clock 2 - clock 1 })))) ∧
    (ToolRegistry.execute reg name params context clock
      uuid).2.executionLogs.length ≤ 1000 := by
  refine ⟨?_, ?_, ?_⟩
  · intro hnone
    simp [ToolRegistry.execute, hnone]
  · intro tool hl
    refine ⟨?_, ?_⟩
    · intro rl hrl hc
      simp [ToolRegistry.execute, hl, hrl, hc]
    · intro hok
      refine ⟨?_, ?_⟩
      · rintro ⟨e, hv⟩
        rcases hok with hrl | ⟨rl, hrl, hc⟩
        · simp [ToolRegistry.execute, hl, hrl, hv]
        · simp [ToolRegistry.execute, hl, hrl, hc, hv]
      · intro hv
        refine ⟨?_, ?_⟩
        · intro m hb
          rcases hok with hrl | ⟨rl, hrl, hc⟩
          · simp [ToolRegistry.execute, hl, hrl, hv, hb]
          · simp [ToolRegistry.execute, hl, hrl, hc, hv, hb]
        · intro res hb
          rcases hok with hrl | ⟨rl, hrl, hc⟩
          · simp [ToolRegistry.execute, hl, hrl, hv, hb]
          · simp [ToolRegistry.execute, hl, hrl, hc, hv, hb]
  · rcases execute_log_change reg name params context clock uuid with h1 | ⟨e, _, h2⟩
    · rw [h1]; exact h
    · rw [h2]; exact logExecution_length_le _ _ h

/-- Concrete instance of the per-path C6 theorem, run on a registry whose
`greet` tool validates the given parameters and returns — the logging
path. -/
theorem execute_logs_iff_body_returns_witness :
    extrasRegistry.executionLogs.length ≤ 1000 ∧
    ((extrasRegistry.tools.lookup "greet" = none →
      (ToolRegistry.execute extrasRegistry "greet" [("who", JValue.str "world")]
        demoContext (fun _ => 7) "u9").2.executionLogs =
        extrasRegistry.executionLogs) ∧
    (∀ tool : Tool, extrasRegistry.tools.lookup "greet" = some tool →
      (∀ rl : RateLimit, tool.rateLimit = some rl →
        (checkRateLimit extrasRegistry.rateLimitTracker "greet" rl.calls rl.period
          7).1 = false →
        (ToolRegistry.execute extrasRegistry "greet" [("who", JValue.str "world")]
          demoContext (fun _ => 7) "u9").2.executionLogs =
          extrasRegistry.executionLogs) ∧
      ((tool.rateLimit = none ∨ ∃ rl : RateLimit, tool.rateLimit = some rl ∧
          (checkRateLimit extrasRegistry.rateLimitTracker "greet" rl.calls rl.period
            7).1 = true) →
        ((∃ e, validateParameters [("who", JValue.str "world")] tool.parameters =
            some e) →
          (ToolRegistry.execute extrasRegistry "greet" [("who", JValue.str "world")]
            demoContext (fun _ => 7) "u9").2.executionLogs =
            extrasRegistry.executionLogs) ∧
        (validateParameters [("who", JValue.str "world")] tool.parameters = none →
          (∀ m, tool.run [("who", JValue.str "world")] demoContext = .throws m →
            (ToolRegistry.execute extrasRegistry "greet" [("who", JValue.str "world")]
              demoContext (fun _ => 7) "u9").2.executionLogs =
              extrasRegistry.executionLogs) ∧
          (∀ res, tool.run [("who", JValue.str "world")] demoContext = .ok res →
            (ToolRegistry.execute extrasRegistry "greet" [("who", JValue.str "world")]
              demoContext (fun _ => 7) "u9").2.executionLogs =
              logExecution extrasRegistry.executionLogs
                { id := "u9", toolName := "greet", agentId := demoContext.agentId,
                  userId := demoContext.userId,
                  parameters := [("who", JValue.str "world")], result := res,
                  timestamp := demoContext.timestamp, duration := 7 - 7 })))) ∧
    (ToolRegistry.execute extrasRegistry "greet" [("who", JValue.str "world")]
      demoContext (fun _ => 7) "u9").2.executionLogs.length ≤ 1000) :=
  ⟨by decide, execute_logs_iff_body_returns extrasRegistry "greet"
    [("who", JValue.str "world")] demoContext (fun _ => 7) "u9" (by decide)⟩
